import Mathlib

/-!
Verification of the overlay (modal) controller of `src/ui/src/modal.ts` and of
the reactive-store contract it relies on.

The module state of `modal.ts` is a single svelte `writable` store
`overlayStore : ModalOverlay` initialised to `{ show: false }`, together with
the exported derived view `store = derived(overlayStore, $store => $store)`.
The operations `hide` and `toggle` read the derived view with `get` and write
`overlayStore` with `set`.

`onHide` callbacks are opaque closures in the source; here each callback is
identified by an opaque id (`Nat`).  Two layers of semantics are given:

* a pure layer (`hide`, `toggle`) that mirrors the source line by line under
  the standing assumption that an invoked callback returns normally and does
  not itself touch the overlay store; each operation returns the new store
  value together with the trace of callback invocations and store writes, in
  program order;
* a fueled layer (`exec`) in which a callback's body is a terminating
  sequence of actions that may re-enter `toggle`/`hide`, write the store, or
  throw; exceptions propagate (a thrown flag in the result) and fuel
  exhaustion yields `none` (the source can loop forever on a callback that
  re-enters `hide` on the same shown state, so fuel is unavoidable).

The svelte store primitives themselves (`writable`, `get`, `derived`,
`subscribe`, `set`) are not part of this repository; where their behaviour
decides a claim they are modelled from the spec, as marked in doc comments.
-/

namespace Modal

/-- Overlay state, from `type ModalOverlay = { show: true; route: string; onHide: OnHide } | { show: false }`
in `modal.ts`.  The `onHide` closure is represented by an opaque callback id. -/
inductive ModalOverlay where
  | hidden : ModalOverlay
  | shown (route : String) (onHide : Nat) : ModalOverlay
deriving DecidableEq

/-- Observable events of a run: invocation of a callback (by id) and a write
of the underlying `overlayStore` (`overlayStore.set(value)`), in program order. -/
inductive Ev where
  | invoke (onHide : Nat) : Ev
  | setState (value : ModalOverlay) : Ev
deriving DecidableEq

/-- Modelled from the spec: svelte's `derived(sourceStore, projectionFn)`, whose
source is not part of this repository.  Per the spec, the derived store's value
is always `projectionFn(sourceStore.get())`. -/
def derive {α β : Type} (projection : α → β) (sourceValue : α) : β :=
  projection sourceValue

/-- The projection `$store => $store` used in
`export const store = derived(overlayStore, $store => $store)` in `modal.ts`. -/
def storeProjection : ModalOverlay → ModalOverlay := fun s => s

/-- Modelled from the spec: `get(store)` on the exported derived view, as used by
`hide` and `toggle`.  It returns the projection applied to the current value of
the underlying `overlayStore`. -/
def storeRead (overlayValue : ModalOverlay) : ModalOverlay :=
  derive storeProjection overlayValue

/-- The initial value of `overlayStore`: `writable<ModalOverlay>({ show: false })`. -/
def initialOverlay : ModalOverlay := ModalOverlay.hidden

/-- The callback id conventionally used for the default `doNothing` callback of
`toggle` (`const doNothing = () => {}`); any id works, the pure layer treats all
callbacks as inert. -/
def doNothing : Nat := 0

/-- `hide` from `modal.ts`, pure layer (the invoked callback is assumed inert):
read the derived view; if shown, invoke its `onHide`; then unconditionally set
`{ show: false }`.  Returns the new `overlayStore` value and the event trace. -/
def hide (s : ModalOverlay) : ModalOverlay × List Ev :=
  match storeRead s with
  | ModalOverlay.shown _ k =>
      (ModalOverlay.hidden, [Ev.invoke k, Ev.setState ModalOverlay.hidden])
  | ModalOverlay.hidden =>
      (ModalOverlay.hidden, [Ev.setState ModalOverlay.hidden])

/-- `toggle` from `modal.ts`, pure layer: read the derived view; if shown with
the same route, call `hide()` and return; otherwise set
`{ show: true, route, onHide }`. -/
def toggle (route : String) (onHide : Nat) (s : ModalOverlay) : ModalOverlay × List Ev :=
  match storeRead s with
  | ModalOverlay.shown r2 _ =>
      if r2 = route then hide s
      else (ModalOverlay.shown route onHide, [Ev.setState (ModalOverlay.shown route onHide)])
  | ModalOverlay.hidden =>
      (ModalOverlay.shown route onHide, [Ev.setState (ModalOverlay.shown route onHide)])

/-- The callback ids invoked along a trace, in order. -/
def invoked (tr : List Ev) : List Nat :=
  tr.filterMap (fun e =>
    match e with
    | Ev.invoke k => some k
    | Ev.setState _ => none)

/-- Whether an event stores a `Shown` value into the overlay store. -/
def storesShown (e : Ev) : Bool :=
  match e with
  | Ev.setState (ModalOverlay.shown _ _) => true
  | _ => false

/-- C1: on `Shown(r)`, `toggle(r)` results in `Hidden`, invokes the stored
`onHide` exactly once, and behaves exactly as a call to `hide()`. -/
theorem toggle_same_route_behaves_as_hide (r : String) (k c2 : Nat) :
    toggle r c2 (ModalOverlay.shown r k)
      = (ModalOverlay.hidden, [Ev.invoke k, Ev.setState ModalOverlay.hidden]) ∧
    toggle r c2 (ModalOverlay.shown r k) = hide (ModalOverlay.shown r k) := by
  constructor <;> simp [toggle, hide, storeRead, derive, storeProjection]

/-- C3: on `Shown(r, k)`, `hide()` invokes the stored `onHide` exactly once and
the invocation precedes the store write that clears the state; the resulting
state is `Hidden`. -/
theorem hide_invokes_onHide_once_then_clears (r : String) (k : Nat) :
    hide (ModalOverlay.shown r k)
      = (ModalOverlay.hidden, [Ev.invoke k, Ev.setState ModalOverlay.hidden]) := rfl

/-- C5: `hide()` on `Hidden` leaves the state `Hidden` and invokes no callback;
the only event is the (idempotent) write of `{ show: false }`, and no fault is
raised (the function is total and returns normally). -/
theorem hide_on_hidden_noop :
    hide ModalOverlay.hidden = (ModalOverlay.hidden, [Ev.setState ModalOverlay.hidden]) ∧
    invoked (hide ModalOverlay.hidden).2 = [] := by
  constructor <;> rfl

/-- C2: on `Shown(r2, k2)` with `r ≠ r2`, `toggle(r, k)` results in
`Shown(r, k)` carrying the newly supplied callback; the only event is the store
write, so the previously stored callback `k2` is never invoked. -/
theorem toggle_other_route_replaces (r r2 : String) (k k2 : Nat) (h : r2 ≠ r) :
    toggle r k (ModalOverlay.shown r2 k2)
      = (ModalOverlay.shown r k, [Ev.setState (ModalOverlay.shown r k)]) := by
  simp [toggle, storeRead, derive, storeProjection, h]

/-- Witness for C2 at the spec's scenario: overlay shown on "settings", toggling
"help" replaces it without invoking the old callback. -/
theorem toggle_other_route_replaces_witness :
    ("settings" : String) ≠ "help" ∧
    toggle "help" 7 (ModalOverlay.shown "settings" 3)
      = (ModalOverlay.shown "help" 7, [Ev.setState (ModalOverlay.shown "help" 7)]) :=
  ⟨by decide, toggle_other_route_replaces "help" "settings" 7 3 (by decide)⟩

/-- C10: on `Shown(r, c1)`, `toggle(r, c2)` behaves as `hide()`: the stored
callback `c1` is the one invoked (exactly once), and the newly supplied `c2` is
discarded — no event of the run stores a `Shown` value, so `c2` is never stored,
and the invocation list is exactly `[c1]`. -/
theorem toggle_same_route_discards_new_callback (r : String) (c1 c2 : Nat) :
    toggle r c2 (ModalOverlay.shown r c1) = hide (ModalOverlay.shown r c1) ∧
    invoked (toggle r c2 (ModalOverlay.shown r c1)).2 = [c1] ∧
    (toggle r c2 (ModalOverlay.shown r c1)).2.all (fun e => !storesShown e) = true := by
  refine ⟨?_, ?_, ?_⟩ <;>
    simp [toggle, hide, invoked, storesShown, storeRead, derive, storeProjection]

/-- A call made against the overlay controller: `toggle(route, onHide)` or `hide()`. -/
inductive Op where
  | toggleOp (route : String) (onHide : Nat) : Op
  | hideOp : Op
deriving DecidableEq

/-- Run one controller call on the current overlay value (pure layer). -/
def applyOp (s : ModalOverlay) : Op → ModalOverlay × List Ev
  | Op.toggleOp r k => toggle r k s
  | Op.hideOp => hide s

/-- Overlay value after a sequence of controller calls starting from the module
initialisation value. -/
def runSeq (ops : List Op) : ModalOverlay :=
  ops.foldl (fun s op => (applyOp s op).1) initialOverlay

/-- The transition edges of the overlay state machine as stated in the spec:
`Hidden --toggle(r)--> Shown(r)`; `Shown(r) --toggle(r)--> Hidden`;
`Shown(r) --toggle(r2)--> Shown(r2)` for `r2 ≠ r`; any `hide` leads to `Hidden`. -/
def SpecEdge (s : ModalOverlay) (op : Op) (t : ModalOverlay) : Prop :=
  match s, op with
  | ModalOverlay.hidden, Op.toggleOp r k => t = ModalOverlay.shown r k
  | ModalOverlay.shown r _, Op.toggleOp r2 k =>
      (r2 = r ∧ t = ModalOverlay.hidden) ∨ (r2 ≠ r ∧ t = ModalOverlay.shown r2 k)
  | _, Op.hideOp => t = ModalOverlay.hidden

/-- C4: after every sequence of `toggle`/`hide` calls the overlay state is
exactly one of `Hidden` or `Shown(route, callback)`, and every further call
moves the state along an edge of the spec's state machine. -/
theorem overlay_state_machine_edges (ops : List Op) (op : Op) :
    (runSeq ops = ModalOverlay.hidden ∨
      ∃ r k, runSeq ops = ModalOverlay.shown r k) ∧
    SpecEdge (runSeq ops) op (applyOp (runSeq ops) op).1 := by
  constructor
  · cases h : runSeq ops with
    | hidden => exact Or.inl rfl
    | shown r k => exact Or.inr ⟨r, k, rfl⟩
  · cases hs : runSeq ops with
    | hidden =>
      cases op <;>
        simp [SpecEdge, applyOp, toggle, hide, storeRead, derive, storeProjection]
    | shown r k =>
      cases op with
      | hideOp =>
        simp [SpecEdge, applyOp, hide, storeRead, derive, storeProjection]
      | toggleOp r2 k2 =>
        by_cases h : r = r2
        · subst h
          simp [SpecEdge, applyOp, toggle, hide, storeRead, derive, storeProjection]
        · have h2 : ¬r2 = r := fun a => h a.symm
          simp [SpecEdge, applyOp, toggle, storeRead, derive, storeProjection, h, h2]

/-- C6: the exported `store` is the derived view of `overlayStore` under the
identity projection `$store => $store`: after every sequence of `toggle`/`hide`
calls, reading the exported store yields the projection of the underlying
store's current value, which is that value itself. -/
theorem derived_store_is_identity_projection (ops : List Op) :
    storeRead (runSeq ops) = storeProjection (runSeq ops) ∧
    storeRead (runSeq ops) = runSeq ops :=
  ⟨rfl, rfl⟩

/-- One action of a callback's body in the fueled layer: a re-entrant call to
`toggle(route, onHide)`, a re-entrant call to `hide()`, a direct write of the
overlay store, or a thrown exception (which aborts the rest of the body). -/
inductive CbAct where
  | actToggle (route : String) (onHide : Nat) : CbAct
  | actHide : CbAct
  | actSet (value : ModalOverlay) : CbAct
  | actThrow : CbAct
deriving DecidableEq

/-- A pending call in the fueled layer: `hide()`, `toggle(route, onHide)`, or
the remaining body of an invoked callback. -/
inductive Call where
  | callHide : Call
  | callToggle (route : String) (onHide : Nat) : Call
  | callActs (acts : List CbAct) : Call
deriving DecidableEq

/-- Fueled semantics of `modal.ts` with re-entrant, possibly throwing callback
bodies given by `env : callback id → body`.  The result is `none` on fuel
exhaustion (the source can genuinely diverge on a callback that re-enters
`hide` while the same overlay is still shown), and otherwise the final
`overlayStore` value, the event trace, and whether an exception propagated out
of the call.  `hide` reads the derived view once, invokes the callback if the
value is shown, and performs its unconditional `overlayStore.set({show:false})`
only when the callback returns normally (a thrown exception skips it);
`toggle` on a same-route shown value tail-calls `hide`, otherwise it writes
the new shown value without touching the old callback. -/
def exec (env : Nat → List CbAct) : Nat → Call → ModalOverlay →
    Option (ModalOverlay × List Ev × Bool)
  | 0, _, _ => none
  | fuel+1, Call.callHide, s =>
    match storeRead s with
    | ModalOverlay.shown _ k =>
      match exec env fuel (Call.callActs (env k)) s with
      | none => none
      | some (s1, tr, true) => some (s1, Ev.invoke k :: tr, true)
      | some (_, tr, false) =>
        some (ModalOverlay.hidden,
          Ev.invoke k :: (tr ++ [Ev.setState ModalOverlay.hidden]), false)
    | ModalOverlay.hidden =>
      some (ModalOverlay.hidden, [Ev.setState ModalOverlay.hidden], false)
  | fuel+1, Call.callToggle route onHide, s =>
    match storeRead s with
    | ModalOverlay.shown r2 _ =>
      if r2 = route then exec env fuel Call.callHide s
      else some (ModalOverlay.shown route onHide,
        [Ev.setState (ModalOverlay.shown route onHide)], false)
    | ModalOverlay.hidden =>
      some (ModalOverlay.shown route onHide,
        [Ev.setState (ModalOverlay.shown route onHide)], false)
  | _+1, Call.callActs [], s => some (s, [], false)
  | fuel+1, Call.callActs (a :: rest), s =>
    match (match a with
      | CbAct.actToggle r k => exec env fuel (Call.callToggle r k) s
      | CbAct.actHide => exec env fuel Call.callHide s
      | CbAct.actSet m => some (m, [Ev.setState m], false)
      | CbAct.actThrow => some (s, [], true)) with
    | none => none
    | some (s1, tr, true) => some (s1, tr, true)
    | some (s1, tr, false) =>
      match exec env fuel (Call.callActs rest) s1 with
      | none => none
      | some (s2, tr2, thrown) => some (s2, tr ++ tr2, thrown)

/-- A `hide()` call in the fueled layer. -/
def execHide (env : Nat → List CbAct) (fuel : Nat) (s : ModalOverlay) :
    Option (ModalOverlay × List Ev × Bool) :=
  exec env fuel Call.callHide s

/-- A `toggle(route, onHide)` call in the fueled layer. -/
def execToggle (env : Nat → List CbAct) (fuel : Nat) (route : String)
    (onHide : Nat) (s : ModalOverlay) : Option (ModalOverlay × List Ev × Bool) :=
  exec env fuel (Call.callToggle route onHide) s

/-- An environment in which every callback body is inert: it returns normally
and does not touch the overlay store. -/
def inertEnv : Nat → List CbAct := fun _ => []

/-- Sanity: on inert callbacks the fueled `hide` agrees with the pure layer. -/
theorem execHide_agrees_with_hide (s : ModalOverlay) :
    execHide inertEnv 2 s = some ((hide s).1, (hide s).2, false) := by
  cases s <;> rfl

/-- Sanity: on inert callbacks the fueled `toggle` agrees with the pure layer. -/
theorem execToggle_agrees_with_toggle (route : String) (k : Nat) (s : ModalOverlay) :
    execToggle inertEnv 3 route k s = some ((toggle route k s).1, (toggle route k s).2, false) := by
  cases s with
  | hidden => rfl
  | shown r2 k2 =>
    by_cases h : r2 = route
    · subst h
      simp [execToggle, exec, toggle, hide, storeRead, derive, storeProjection, inertEnv]
    · simp [execToggle, exec, toggle, storeRead, derive, storeProjection, h]

/-- C8: whenever a `hide()` call returns normally — in particular when the
invoked callback itself re-enters `toggle` or writes the overlay store but
returns normally — the resulting overlay state is `Hidden`: the unconditional
`overlayStore.set({show:false})` at the end of `hide` runs after the callback
and overrides any re-entrant state change the callback made. -/
theorem hide_normal_return_yields_hidden (env : Nat → List CbAct) (fuel : Nat)
    (s s1 : ModalOverlay) (tr : List Ev)
    (h : execHide env fuel s = some (s1, tr, false)) : s1 = ModalOverlay.hidden := by
  cases fuel with
  | zero => simp [execHide, exec] at h
  | succ fuel =>
    cases s with
    | hidden =>
      simp [execHide, exec, storeRead, derive, storeProjection] at h
      exact h.1.symm
    | shown r k =>
      simp only [execHide, exec, storeRead, derive, storeProjection] at h
      rcases hrun : exec env fuel (Call.callActs (env k)) (ModalOverlay.shown r k) with
        _ | ⟨s2, tr2, thrown⟩
      · rw [hrun] at h
        exact absurd h (by simp)
      · rw [hrun] at h
        cases thrown with
        | true => simp at h
        | false => simp at h; exact h.1.symm

/-- Environment for the C8 witness: callback 1 re-enters `toggle("help", 2)`. -/
def envReenter : Nat → List CbAct := fun _ => [CbAct.actToggle "help" 2]

/-- Witness for C8: with the overlay shown on "settings" and its callback
re-entrantly toggling "help" (which stores `Shown("help", 2)` mid-call),
`hide()` still returns normally with final state `Hidden`. -/
theorem hide_normal_return_yields_hidden_witness :
    execHide envReenter 3 (ModalOverlay.shown "settings" 1)
      = some (ModalOverlay.hidden,
          [Ev.invoke 1, Ev.setState (ModalOverlay.shown "help" 2),
            Ev.setState ModalOverlay.hidden], false) ∧
    (ModalOverlay.hidden : ModalOverlay) = ModalOverlay.hidden :=
  ⟨by decide,
    hide_normal_return_yields_hidden envReenter 3 (ModalOverlay.shown "settings" 1)
      ModalOverlay.hidden
      [Ev.invoke 1, Ev.setState (ModalOverlay.shown "help" 2),
        Ev.setState ModalOverlay.hidden] (by decide)⟩

/-- C9: if the stored callback throws when `hide()` invokes it, the final
`overlayStore.set({show:false})` is skipped and the exception propagates: the
state remains `Shown` with the same route and the same callback, so a
subsequent `hide()` on the resulting state invokes that same callback again —
the exactly-once guarantee holds only for callbacks that return normally. -/
theorem hide_throwing_callback_keeps_state (env : Nat → List CbAct) (fuel : Nat)
    (r : String) (k : Nat) (h : env k = [CbAct.actThrow]) :
    execHide env (fuel+2) (ModalOverlay.shown r k)
      = some (ModalOverlay.shown r k, [Ev.invoke k], true) := by
  simp only [execHide, exec, storeRead, derive, storeProjection, h]

/-- Environment for the C9 witness: every callback body throws immediately. -/
def envThrow : Nat → List CbAct := fun _ => [CbAct.actThrow]

/-- Witness for C9: hiding `Shown("settings", 1)` under a throwing callback
leaves the state unchanged with the exception propagating. -/
theorem hide_throwing_callback_keeps_state_witness :
    envThrow 1 = [CbAct.actThrow] ∧
    execHide envThrow 2 (ModalOverlay.shown "settings" 1)
      = some (ModalOverlay.shown "settings" 1, [Ev.invoke 1], true) :=
  ⟨rfl, hide_throwing_callback_keeps_state envThrow 0 "settings" 1 rfl⟩

/-- Modelled from the spec: the reactive store primitive (svelte's `writable`,
whose source is not part of this repository) — a current value together with
the ordered collection of registered subscriber callbacks (insertion order is
notification order).  Subscriber callbacks are opaque and identified by ids. -/
structure SvelteStore (α : Type) where
  value : α
  subscribers : List Nat

/-- A delivery of a value to a subscriber callback. -/
inductive NotifyEv (α : Type) where
  | notify (subscriber : Nat) (value : α) : NotifyEv α

/-- Modelled from the spec: `subscribe(callback)` registers the callback and
immediately invokes it once with the current value.  Returns the updated store
and the trace of deliveries performed by the call. -/
def subscribeStore {α : Type} (st : SvelteStore α) (cb : Nat) :
    SvelteStore α × List (NotifyEv α) :=
  ({ value := st.value, subscribers := st.subscribers ++ [cb] },
   [NotifyEv.notify cb st.value])

/-- Modelled from the spec: `set(value)` replaces the current value and
synchronously notifies every currently-registered subscriber with the new
value, in registration order. -/
def setStore {α : Type} (st : SvelteStore α) (v : α) :
    SvelteStore α × List (NotifyEv α) :=
  ({ value := v, subscribers := st.subscribers },
   st.subscribers.map (fun c => NotifyEv.notify c v))

/-- C7: for every store and every current value, subscribing a callback
immediately delivers exactly one notification to that callback, carrying the
current value; in the combined trace of the subscription followed by any
subsequent `set`, that initial delivery precedes every delivery of the newer
value. -/
theorem subscribe_immediate_notification {α : Type} (st : SvelteStore α)
    (cb : Nat) (v : α) :
    (subscribeStore st cb).2 = [NotifyEv.notify cb st.value] ∧
    (subscribeStore st cb).2 ++ (setStore (subscribeStore st cb).1 v).2
      = NotifyEv.notify cb st.value
          :: (st.subscribers ++ [cb]).map (fun c => NotifyEv.notify c v) :=
  ⟨rfl, rfl⟩

end Modal
